import Mathlib

/-!
# ParkingPass — shallow embedding of the pass allowance and eligibility engine

This file embeds the core of the ParkingPass repository in Lean 4:

* `createPass` and `updatePassPaymentStatus` follow
  `client/src/lib/mock-data.ts` (`api.createPass`,
  `api.updatePassPaymentStatus`) step by step;
* `countFreePassesThisMonth` follows `passes-db.ts` (root version, the
  Supabase query `unit_id = u ∧ type = "free" ∧ monthStart ≤ created_at <
  nextMonthStart`);
* `countFreePassesThisMonthClient` follows
  `client/src/lib/passes-db.ts` (`type === "free" || payment_status ===
  "free"` over the month window).

Modelling conventions:

* Timestamps (JS `Date` / ISO strings) are `Nat` milliseconds;
  `date-fns.isAfter a b` is `b < a`, `addHours t 24` is `t + 86400000`.
* Calendar-date strings `"yyyy-MM-dd"` are `Nat` day indices; the
  date-fns calendar primitives (`startOfMonth`, `endOfMonth`, `format`,
  `parseISO` of a date string, `isSameDay`) are fields of a `Cal`
  structure, so every theorem holds for an arbitrary calendar; `cal0`
  below is a concrete 30-day-month calendar used to evaluate witnesses.
* `Math.random().toString(36).substr(2, 9)` id generation is modelled by
  a fresh-id counter threaded through the state (`nextId`).
* A thrown `Error` is an `Except.error` value; the mutable module-level
  store (`settings`, `units`, `vehicles`, `passes`) is an explicit
  `State` record and each operation returns the post-call state.
-/

namespace ParkingPass

/-- Calendar primitives used by the engine (date-fns `startOfMonth`,
`endOfMonth`, `format(-, "yyyy-MM-dd")`, `parseISO` of a day string, and
the month-start of the following month used by `passes-db.ts`).
Timestamps are `Nat` milliseconds, day strings are `Nat` day indices. -/
structure Cal where
  startOfMonth : Nat → Nat
  endOfMonth : Nat → Nat
  nextMonthStart : Nat → Nat
  dayOf : Nat → Nat
  dayStart : Nat → Nat

/-- The `type` field of a pass: `"free" | "paid" | "party"`. -/
inductive PassType where
  | free
  | paid
  | party
deriving DecidableEq

/-- The `paymentStatus` field: `"free" | "paid" | "payment_required" | "waived"`. -/
inductive PaymentStatus where
  | free
  | paid
  | payment_required
  | waived
deriving DecidableEq

/-- The `vehicleSnapshot` embedded in a pass (mock-data.ts `Pass.vehicleSnapshot`). -/
structure Snapshot where
  licensePlate : String
  make : String
  model : String
  color : String
  nickname : Option String
deriving DecidableEq

/-- mock-data.ts `Unit` record (fields the engine reads; `partyDays` is the
list of consumed party-day date strings). Named `URec` because `Unit` is
taken by Lean's unit type. -/
structure URec where
  id : String
  freePassLimit : Nat
  partyDays : List Nat
deriving DecidableEq

/-- mock-data.ts `Vehicle` record. -/
structure Vehicle where
  id : String
  unitId : String
  licensePlate : String
  make : String
  model : String
  color : String
  nickname : Option String
deriving DecidableEq

/-- mock-data.ts `Pass` record. -/
structure Pass where
  id : Nat
  unitId : String
  vehicleId : String
  vehicleSnapshot : Snapshot
  createdAt : Nat
  expiresAt : Nat
  type : PassType
  paymentStatus : PaymentStatus
  price : Option Nat
deriving DecidableEq

/-- The module-level mutable store of mock-data.ts (`settings`, `units`,
`vehicles`, `passes`) plus the fresh-id counter. -/
structure State where
  pricePerPass : Nat
  partyPassLimit : Nat
  units : List URec
  vehicles : List Vehicle
  passes : List Pass
  nextId : Nat
deriving DecidableEq

/-- The errors thrown by the embedded operations. -/
inductive Err where
  | vehicleNotFound
  | duplicateActivePass (expiresAt : Nat)
  | unitNotFound
  | partyLimitReached (limit : Nat)
  | passNotFound
deriving DecidableEq

/-- Embeds `vehicles.find(v => v.id === vehicleId)` of `api.createPass` step 1. -/
def findVehicle (s : State) (vehicleId : String) : Option Vehicle :=
  s.vehicles.find? (fun v => v.id == vehicleId)

/-- Embeds the step-2 query of `api.createPass`,
`passes.find(p => p.vehicleId === vehicleId && isAfter(parseISO(p.expiresAt), new Date()))`: first pass of the vehicle with `expiresAt > now`. -/
def findActivePass (s : State) (vehicleId : String) (now : Nat) : Option Pass :=
  s.passes.find? (fun p => p.vehicleId == vehicleId && now < p.expiresAt)

/-- Embeds `unit.partyDays.includes(todayStr)` where `todayStr = format(now, "yyyy-MM-dd")`. -/
def isTodayPartyDay (cal : Cal) (u : URec) (now : Nat) : Bool :=
  u.partyDays.contains (cal.dayOf now)

/-- Embeds `unit.partyDays.filter(d => isAfter(parseISO(d), monthStart) &&
isBefore(parseISO(d), monthEnd) || isSameDay(parseISO(d), monthStart) ||
isSameDay(parseISO(d), monthEnd)).length` — the party-day-in-current-month
count of `api.createPass` (JS `&&` binds tighter than `||`). -/
def partyDaysThisMonth (cal : Cal) (u : URec) (now : Nat) : Nat :=
  (u.partyDays.filter (fun d =>
    (cal.startOfMonth now < cal.dayStart d && cal.dayStart d < cal.endOfMonth now)
      || cal.dayOf (cal.dayStart d) == cal.dayOf (cal.startOfMonth now)
      || cal.dayOf (cal.dayStart d) == cal.dayOf (cal.endOfMonth now))).length

/-- Embeds `passes.filter(p => p.unitId === unitId && isAfter(parseISO(p.createdAt), monthStart)
&& isBefore(parseISO(p.createdAt), monthEnd) && p.type === "free").length` —
the free-pass-this-month count read by `api.createPass`. -/
def freeCountThisMonth (cal : Cal) (passes : List Pass) (unitId : String) (now : Nat) : Nat :=
  (passes.filter (fun p => p.unitId == unitId
      && cal.startOfMonth now < p.createdAt
      && p.createdAt < cal.endOfMonth now
      && p.type == PassType.free)).length

/-- Construction and insertion of the new pass (`newPass` literal and
`passes.unshift(newPass)` at the end of `api.createPass`); `price` is
`finalPrice > 0 ? finalPrice : undefined`. -/
def mkPass (s : State) (units' : List URec) (vehicle : Vehicle) (now : Nat)
    (unitId vehicleId : String) (ty : PassType) (st : PaymentStatus) (price : Nat) :
    State × Except Err Pass :=
  let newPass : Pass :=
    { id := s.nextId
      unitId := unitId
      vehicleId := vehicleId
      vehicleSnapshot :=
        { licensePlate := vehicle.licensePlate
          make := vehicle.make
          model := vehicle.model
          color := vehicle.color
          nickname := vehicle.nickname }
      createdAt := now
      expiresAt := now + 86400000
      type := ty
      paymentStatus := st
      price := if 0 < price then some price else none }
  ({ s with units := units', passes := newPass :: s.passes, nextId := s.nextId + 1 },
    Except.ok newPass)

/-- Embeds `api.createPass(unitId, vehicleId, isPartyPass)` from mock-data.ts,
evaluated at clock value `now`; returns the post-call store and the
result (the `units[uIdx]? = none` arm is unreachable since `findIdx?`
returns an index below the length). -/
def createPass (cal : Cal) (s : State) (now : Nat) (unitId vehicleId : String)
    (isPartyPass : Bool) : State × Except Err Pass :=
  match findVehicle s vehicleId with
  | none => (s, Except.error Err.vehicleNotFound)
  | some vehicle =>
    match findActivePass s vehicleId now with
    | some active => (s, Except.error (Err.duplicateActivePass active.expiresAt))
    | none =>
      match s.units.findIdx? (fun u => u.id == unitId) with
      | none => (s, Except.error Err.unitNotFound)
      | some uIdx =>
        match s.units[uIdx]? with
        | none => (s, Except.error Err.unitNotFound)
        | some unit =>
          if isPartyPass then
            if isTodayPartyDay cal unit now then
              mkPass s s.units vehicle now unitId vehicleId PassType.party PaymentStatus.free 0
            else if s.partyPassLimit ≤ partyDaysThisMonth cal unit now then
              (s, Except.error (Err.partyLimitReached s.partyPassLimit))
            else
              mkPass s
                (s.units.set uIdx { unit with partyDays := unit.partyDays ++ [cal.dayOf now] })
                vehicle now unitId vehicleId PassType.party PaymentStatus.free 0
          else
            if isTodayPartyDay cal unit now then
              mkPass s s.units vehicle now unitId vehicleId PassType.free PaymentStatus.free 0
            else if freeCountThisMonth cal s.passes unitId now < unit.freePassLimit then
              mkPass s s.units vehicle now unitId vehicleId PassType.free PaymentStatus.free 0
            else
              mkPass s s.units vehicle now unitId vehicleId PassType.paid
                PaymentStatus.payment_required s.pricePerPass

/-- Embeds `api.updatePassPaymentStatus(passId, status)` from mock-data.ts:
`passes[index] = { ...passes[index], paymentStatus: status }` after a
`findIndex`, failing only when the pass id is absent. -/
def updatePassPaymentStatus (s : State) (passId : Nat) (status : PaymentStatus) :
    State × Except Err Pass :=
  match s.passes.findIdx? (fun p => p.id == passId) with
  | none => (s, Except.error Err.passNotFound)
  | some i =>
    match s.passes[i]? with
    | none => (s, Except.error Err.passNotFound)
    | some p =>
      let p' := { p with paymentStatus := status }
      ({ s with passes := s.passes.set i p' }, Except.ok p')

/-- Row of the Supabase `passes` table (`passes-db.ts` `PassRow`). -/
structure PassRow where
  id : String
  unit_id : String
  vehicle_id : String
  vehicle_snapshot : Snapshot
  created_at : Nat
  expires_at : Nat
  type : PassType
  payment_status : PaymentStatus
  price : Option Nat
deriving DecidableEq

/-- Embeds `countFreePassesThisMonth` of the root `passes-db.ts`: rows with this
`unit_id`, `type = "free"`, and `monthStart ≤ created_at < nextMonthStart`. -/
def countFreePassesThisMonth (cal : Cal) (rows : List PassRow) (unitId : String)
    (now : Nat) : Nat :=
  (rows.filter (fun r => r.unit_id == unitId
      && r.type == PassType.free
      && cal.startOfMonth now ≤ r.created_at
      && r.created_at < cal.nextMonthStart now)).length

/-- Embeds `countFreePassesThisMonth` of `client/src/lib/passes-db.ts`: fetches the
unit's rows of the month window and counts `r.type === "free" ||
r.payment_status === "free"`. -/
def countFreePassesThisMonthClient (cal : Cal) (rows : List PassRow) (unitId : String)
    (now : Nat) : Nat :=
  ((rows.filter (fun r => r.unit_id == unitId
      && cal.startOfMonth now ≤ r.created_at
      && r.created_at < cal.nextMonthStart now)).filter
    (fun r => r.type == PassType.free || r.payment_status == PaymentStatus.free)).length

/-- One `api.createPass` request of a run: clock value and arguments. -/
structure Req where
  now : Nat
  unitId : String
  vehicleId : String
  isParty : Bool

/-- Execute a sequence of `createPass` calls against the store, keeping
each post-call state. -/
def applyRun (cal : Cal) (s : State) : List Req → State
  | [] => s
  | r :: rs => applyRun cal (createPass cal s r.now r.unitId r.vehicleId r.isParty).1 rs

/-- At clock value `t`, of any two distinct stored passes of the same
vehicle at least one is already expired (`expiresAt ≤ t`). -/
def Inv (t : Nat) (passes : List Pass) : Prop :=
  passes.Pairwise (fun p q => p.vehicleId = q.vehicleId → p.expiresAt ≤ t ∨ q.expiresAt ≤ t)

/-- Decidable equality on results, so concrete runs can be checked by `decide`. -/
instance {ε α : Type} [DecidableEq ε] [DecidableEq α] : DecidableEq (Except ε α) := fun x y =>
  match x, y with
  | Except.ok a, Except.ok b =>
    if h : a = b then isTrue (by rw [h]) else isFalse (fun hc => h (Except.ok.inj hc))
  | Except.error a, Except.error b =>
    if h : a = b then isTrue (by rw [h]) else isFalse (fun hc => h (Except.error.inj hc))
  | Except.ok _, Except.error _ => isFalse (fun hc => Except.noConfusion hc)
  | Except.error _, Except.ok _ => isFalse (fun hc => Except.noConfusion hc)

/-- A simple concrete calendar (30-day months, 86400000 ms days) used to
evaluate the engine on concrete inputs; every engine theorem below is
proved for an arbitrary `Cal`. -/
def cal0 : Cal where
  startOfMonth := fun t => t / 2592000000 * 2592000000
  endOfMonth := fun t => t / 2592000000 * 2592000000 + 2591999999
  nextMonthStart := fun t => t / 2592000000 * 2592000000 + 2592000000
  dayOf := fun t => t / 86400000
  dayStart := fun d => d * 86400000

/-! ## Concrete fixtures used to evaluate the engine on closed inputs -/

/-- Snapshot of the demo vehicle. -/
def snap0 : Snapshot := ⟨"ABC123", "Toyota", "Camry", "Silver", none⟩

/-- Demo vehicle `v1` of unit `u1`. -/
def veh0 : Vehicle := ⟨"v1", "u1", "ABC123", "Toyota", "Camry", "Silver", none⟩

/-- Unit `u1`, free-pass limit 2, no party days. -/
def unit0 : URec := ⟨"u1", 2, []⟩

/-- Unit `u1` with day 0 (today, under `cal0` at `now = 1000000`) consumed
as a party day. -/
def unitP : URec := ⟨"u1", 2, [0]⟩

/-- Store with one unit and one vehicle, no passes; price 5, party limit 3. -/
def state0 : State := ⟨5, 3, [unit0], [veh0], [], 0⟩

/-- Store where today is already a party day for `u1`. -/
def stateP : State := ⟨5, 3, [unitP], [veh0], [], 0⟩

/-- Store with party-pass limit 0, so a fresh party request exceeds it. -/
def stateL : State := ⟨5, 0, [unit0], [veh0], [], 0⟩

/-- A stored pass of `v1` with `paymentStatus = free`, expiring at 86400000. -/
def pass0 : Pass := ⟨0, "u1", "v1", snap0, 0, 86400000, PassType.free, PaymentStatus.free, none⟩

/-- Store already holding `pass0`. -/
def state4 : State := ⟨5, 3, [unit0], [veh0], [pass0], 1⟩

/-- A `party`-typed Supabase row issued at no charge this month. -/
def rowParty : PassRow := ⟨"p1", "u1", "v1", snap0, 1000000, 87400000, PassType.party, PaymentStatus.free, none⟩

/-! ## Helper lemmas shared by the claim theorems -/

/-- Whenever `createPass` throws, the store is exactly the pre-call store. -/
theorem createPass_error_state (cal : Cal) (s : State) (now : Nat) (uid vid : String)
    (b : Bool) (e : Err) (h : (createPass cal s now uid vid b).2 = Except.error e) :
    (createPass cal s now uid vid b).1 = s := by
  unfold createPass at h ⊢
  repeat' split at h
  all_goals simp_all [mkPass]

/-- Every pass returned by a successful `createPass` is the freshly built
pass: `createdAt = now`, `expiresAt = now + 24h`, owned by the requested
unit and vehicle. -/
theorem createPass_ok_shape (cal : Cal) (s : State) (now : Nat) (uid vid : String)
    (b : Bool) (p : Pass) (h : (createPass cal s now uid vid b).2 = Except.ok p) :
    p.createdAt = now ∧ p.expiresAt = now + 86400000 ∧ p.unitId = uid ∧ p.vehicleId = vid ∧
      (createPass cal s now uid vid b).1.passes = p :: s.passes := by
  unfold createPass at h ⊢
  repeat' split at h
  all_goals simp_all [mkPass]
  all_goals rcases h with ⟨rfl⟩
  all_goals (try simp)
  all_goals (split <;> first | (exfalso; omega) | simp)

/-- A successful `createPass` implies the duplicate-active-pass query was
empty at the call instant. -/
theorem createPass_ok_no_active (cal : Cal) (s : State) (now : Nat) (uid vid : String)
    (b : Bool) (p : Pass) (h : (createPass cal s now uid vid b).2 = Except.ok p) :
    findActivePass s vid now = none := by
  unfold createPass at h
  repeat' split at h
  all_goals simp_all [mkPass]

/-- The per-vehicle expiry invariant survives raising the clock value. -/
theorem Inv.mono {t t' : Nat} {l : List Pass} (ht : t ≤ t') (h : Inv t l) : Inv t' l :=
  h.imp (fun hpq hv => (hpq hv).imp (fun h1 => le_trans h1 ht) (fun h1 => le_trans h1 ht))

/-- When the duplicate-active-pass query is empty, every stored pass of the
vehicle is expired at the query instant. -/
theorem findActivePass_none {s : State} {vid : String} {now : Nat}
    (h : findActivePass s vid now = none) :
    ∀ p ∈ s.passes, p.vehicleId = vid → p.expiresAt ≤ now := by
  intro p hp hv
  have := List.find?_eq_none.mp h p hp
  simp [hv] at this
  omega

/-- One `createPass` call preserves the per-vehicle expiry invariant at the
call instant. -/
theorem inv_step (cal : Cal) (s : State) (now : Nat) (uid vid : String) (b : Bool)
    (h : Inv now s.passes) : Inv now (createPass cal s now uid vid b).1.passes := by
  cases hres : (createPass cal s now uid vid b).2 with
  | error e => rw [createPass_error_state cal s now uid vid b e hres]; exact h
  | ok p =>
    obtain ⟨-, hexp, -, hvid, hpasses⟩ := createPass_ok_shape cal s now uid vid b p hres
    have hnone := createPass_ok_no_active cal s now uid vid b p hres
    unfold Inv at h ⊢
    rw [hpasses]
    refine List.Pairwise.cons ?_ h
    intro q hq hpq
    exact Or.inr (findActivePass_none hnone q hq (by rw [← hpq, hvid]))

/-- Running a sequence of `createPass` calls with nondecreasing clock values
preserves the per-vehicle expiry invariant up to any later instant. -/
theorem inv_applyRun (cal : Cal) : ∀ (reqs : List Req) (s : State) (t now : Nat),
    Inv t s.passes → List.Chain' (· ≤ ·) (t :: reqs.map Req.now) →
    t ≤ now → (∀ r ∈ reqs, r.now ≤ now) →
    Inv now (applyRun cal s reqs).passes := by
  intro reqs
  induction reqs with
  | nil => intro s t now h _ ht _; exact h.mono ht
  | cons r rs ih =>
    intro s t now h hchain ht hall
    rw [List.map_cons, List.chain'_cons] at hchain
    have h1 : Inv r.now s.passes := h.mono hchain.1
    have h2 := inv_step cal s r.now r.unitId r.vehicleId r.isParty h1
    exact ih _ r.now now h2 hchain.2 (hall r (List.mem_cons_self r rs))
      (fun q hq => hall q (List.mem_cons_of_mem r hq))

/-- Under the per-vehicle expiry invariant at instant `t`, each vehicle has
at most one stored pass with `expiresAt > t`. -/
theorem inv_at_most_one (t : Nat) (vid : String) : ∀ (l : List Pass), Inv t l →
    (l.filter (fun p => p.vehicleId == vid && decide (t < p.expiresAt))).length ≤ 1 := by
  intro l
  induction l with
  | nil => intro _; simp
  | cons p l ih =>
    intro h
    unfold Inv at h
    rw [List.pairwise_cons] at h
    by_cases hp : (p.vehicleId == vid && decide (t < p.expiresAt)) = true
    · rw [List.filter_cons, if_pos hp]
      have hnil : l.filter (fun q => q.vehicleId == vid && decide (t < q.expiresAt)) = [] := by
        rw [List.filter_eq_nil_iff]
        intro q hq hkq
        simp only [Bool.and_eq_true, beq_iff_eq, decide_eq_true_eq] at hp hkq
        have := h.1 q hq (by rw [hp.1, hkq.1])
        omega
      rw [hnil]
      simp
    · rw [List.filter_cons, if_neg hp]
      exact ih h.2

/-- A request for a vehicle that exists and currently holds an unexpired
pass is rejected with `DuplicateActivePass` and inserts nothing. -/
theorem createPass_duplicate_reject (cal : Cal) (s : State) (now : Nat) (uid vid : String)
    (b : Bool) (v : Vehicle) (q : Pass) (hv : findVehicle s vid = some v)
    (hq : q ∈ s.passes) (hqv : q.vehicleId = vid) (hqe : now < q.expiresAt) :
    (∃ e, (createPass cal s now uid vid b).2 = Except.error (Err.duplicateActivePass e)) ∧
      (createPass cal s now uid vid b).1 = s := by
  have hsome : (findActivePass s vid now).isSome := by
    rw [findActivePass, List.find?_isSome]
    exact ⟨q, hq, by simp [hqv, hqe]⟩
  obtain ⟨a, ha⟩ := Option.isSome_iff_exists.mp hsome
  constructor
  · exact ⟨a.expiresAt, by unfold createPass; rw [hv, ha]⟩
  · unfold createPass; rw [hv, ha]

/-- Reduction of `createPass` past the vehicle lookup, the empty
duplicate-active-pass query and the unit lookup, down to the decision
section of the source. -/
theorem createPass_reduce (cal : Cal) (s : State) (now : Nat) (uid vid : String)
    (b : Bool) (v : Vehicle) (i : Nat) (u : URec)
    (hv : findVehicle s vid = some v)
    (ha : findActivePass s vid now = none)
    (hi : s.units.findIdx? (fun w => w.id == uid) = some i)
    (hu : s.units[i]? = some u) :
    createPass cal s now uid vid b =
      if b then
        if isTodayPartyDay cal u now then
          mkPass s s.units v now uid vid PassType.party PaymentStatus.free 0
        else if s.partyPassLimit ≤ partyDaysThisMonth cal u now then
          (s, Except.error (Err.partyLimitReached s.partyPassLimit))
        else
          mkPass s (s.units.set i { u with partyDays := u.partyDays ++ [cal.dayOf now] })
            v now uid vid PassType.party PaymentStatus.free 0
      else
        if isTodayPartyDay cal u now then
          mkPass s s.units v now uid vid PassType.free PaymentStatus.free 0
        else if freeCountThisMonth cal s.passes uid now < u.freePassLimit then
          mkPass s s.units v now uid vid PassType.free PaymentStatus.free 0
        else
          mkPass s s.units v now uid vid PassType.paid PaymentStatus.payment_required
            s.pricePerPass := by
  simp only [createPass, hv, ha, hi, hu]

/-! ## Claim theorems -/

/-- C9: every Pass returned by a successful `createPass` has
`createdAt = now`, the single instant the request was evaluated at, and
`expiresAt = createdAt + 24 hours` (86400000 ms). -/
theorem C9_expiry_window (cal : Cal) (s : State) (now : Nat) (uid vid : String)
    (b : Bool) (p : Pass) (h : (createPass cal s now uid vid b).2 = Except.ok p) :
    p.createdAt = now ∧ p.expiresAt = p.createdAt + 86400000 := by
  obtain ⟨h1, h2, -⟩ := createPass_ok_shape cal s now uid vid b p h
  exact ⟨h1, by rw [h1, h2]⟩

/-- C9 witness: a concrete successful call satisfying the hypothesis. -/
theorem C9_expiry_window_witness :
    (createPass cal0 state0 1000000 "u1" "v1" false).2 = Except.ok
      ⟨0, "u1", "v1", snap0, 1000000, 87400000, PassType.free, PaymentStatus.free, none⟩ ∧
    (∀ p, (createPass cal0 state0 1000000 "u1" "v1" false).2 = Except.ok p →
      p.createdAt = 1000000 ∧ p.expiresAt = p.createdAt + 86400000) :=
  ⟨by decide, fun p h => C9_expiry_window cal0 state0 1000000 "u1" "v1" false p h⟩

/-- C10: `createPass` is atomic on error — whenever it throws
(`VehicleNotFound`, `DuplicateActivePass`, `UnitNotFound` or
`PartyLimitReached`), the returned store (passes and every unit's
`partyDays`) is exactly the pre-call store. -/
theorem C10_atomic_on_error (cal : Cal) (s : State) (now : Nat) (uid vid : String)
    (b : Bool) (e : Err) (h : (createPass cal s now uid vid b).2 = Except.error e) :
    (createPass cal s now uid vid b).1 = s :=
  createPass_error_state cal s now uid vid b e h

/-- C10 witness: a concrete rejected call (party limit 0) leaving the store
unchanged. -/
theorem C10_atomic_on_error_witness :
    (createPass cal0 stateL 1000000 "u1" "v1" true).2
        = Except.error (Err.partyLimitReached 0) ∧
    (createPass cal0 stateL 1000000 "u1" "v1" true).1 = stateL :=
  ⟨by decide, C10_atomic_on_error cal0 stateL 1000000 "u1" "v1" true
    (Err.partyLimitReached 0) (by decide)⟩

/-- C2: on a non-party day, a regular request is classified free
(`type = free`, `paymentStatus = free`) when the unit's free-pass count
this month (as the code computes it) is below `freePassLimit`, and paid
(`type = paid`, `paymentStatus = payment_required`, `price = pricePerPass`)
when the count has reached the limit (with the spec's constraint that
`pricePerPass` is positive). -/
theorem C2_classify_regular_nonparty (cal : Cal) (s : State) (now : Nat) (uid vid : String)
    (v : Vehicle) (i : Nat) (u : URec)
    (hv : findVehicle s vid = some v)
    (ha : findActivePass s vid now = none)
    (hi : s.units.findIdx? (fun w => w.id == uid) = some i)
    (hu : s.units[i]? = some u)
    (hnp : isTodayPartyDay cal u now = false)
    (hprice : 0 < s.pricePerPass) :
    (freeCountThisMonth cal s.passes uid now < u.freePassLimit →
      ∃ p, (createPass cal s now uid vid false).2 = Except.ok p ∧
        p.type = PassType.free ∧ p.paymentStatus = PaymentStatus.free ∧ p.price = none) ∧
    (u.freePassLimit ≤ freeCountThisMonth cal s.passes uid now →
      ∃ p, (createPass cal s now uid vid false).2 = Except.ok p ∧
        p.type = PassType.paid ∧ p.paymentStatus = PaymentStatus.payment_required ∧
        p.price = some s.pricePerPass) := by
  rw [createPass_reduce cal s now uid vid false v i u hv ha hi hu]
  simp only [Bool.false_eq_true, if_false, hnp, if_true]
  constructor
  · intro hlt
    rw [if_pos hlt]
    exact ⟨_, rfl, rfl, rfl, rfl⟩
  · intro hge
    rw [if_neg (by omega)]
    exact ⟨_, rfl, rfl, rfl, by simp [mkPass, hprice]⟩

/-- C2 witness: the concrete store with zero free passes used (limit 2). -/
theorem C2_classify_regular_nonparty_witness :
    (findVehicle state0 "v1" = some veh0 ∧ findActivePass state0 "v1" 1000000 = none ∧
      state0.units.findIdx? (fun w => w.id == "u1") = some 0 ∧ state0.units[0]? = some unit0 ∧
      isTodayPartyDay cal0 unit0 1000000 = false ∧ 0 < state0.pricePerPass) ∧
    ((freeCountThisMonth cal0 state0.passes "u1" 1000000 < unit0.freePassLimit →
      ∃ p, (createPass cal0 state0 1000000 "u1" "v1" false).2 = Except.ok p ∧
        p.type = PassType.free ∧ p.paymentStatus = PaymentStatus.free ∧ p.price = none) ∧
    (unit0.freePassLimit ≤ freeCountThisMonth cal0 state0.passes "u1" 1000000 →
      ∃ p, (createPass cal0 state0 1000000 "u1" "v1" false).2 = Except.ok p ∧
        p.type = PassType.paid ∧ p.paymentStatus = PaymentStatus.payment_required ∧
        p.price = some state0.pricePerPass)) :=
  ⟨by decide, C2_classify_regular_nonparty cal0 state0 1000000 "u1" "v1" veh0 0 unit0
    (by decide) (by decide) (by decide) (by decide) (by decide) (by decide)⟩

/-- C5: a fresh party request on a non-party day with the month's party-day
count already at the limit is rejected with `PartyLimitReached(limit)` and
creates nothing (store unchanged). -/
theorem C5_party_limit_reject (cal : Cal) (s : State) (now : Nat) (uid vid : String)
    (v : Vehicle) (i : Nat) (u : URec)
    (hv : findVehicle s vid = some v)
    (ha : findActivePass s vid now = none)
    (hi : s.units.findIdx? (fun w => w.id == uid) = some i)
    (hu : s.units[i]? = some u)
    (hnp : isTodayPartyDay cal u now = false)
    (hlim : s.partyPassLimit ≤ partyDaysThisMonth cal u now) :
    (createPass cal s now uid vid true).2
        = Except.error (Err.partyLimitReached s.partyPassLimit) ∧
    (createPass cal s now uid vid true).1 = s := by
  rw [createPass_reduce cal s now uid vid true v i u hv ha hi hu]
  simp only [if_true, hnp, Bool.false_eq_true, if_false]
  rw [if_pos hlim]
  exact ⟨rfl, rfl⟩

/-- C5 witness: the store with party limit 0 and no party day today. -/
theorem C5_party_limit_reject_witness :
    (findVehicle stateL "v1" = some veh0 ∧ findActivePass stateL "v1" 1000000 = none ∧
      stateL.units.findIdx? (fun w => w.id == "u1") = some 0 ∧ stateL.units[0]? = some unit0 ∧
      isTodayPartyDay cal0 unit0 1000000 = false ∧
      stateL.partyPassLimit ≤ partyDaysThisMonth cal0 unit0 1000000) ∧
    ((createPass cal0 stateL 1000000 "u1" "v1" true).2
        = Except.error (Err.partyLimitReached stateL.partyPassLimit) ∧
      (createPass cal0 stateL 1000000 "u1" "v1" true).1 = stateL) :=
  ⟨by decide, C5_party_limit_reject cal0 stateL 1000000 "u1" "v1" veh0 0 unit0
    (by decide) (by decide) (by decide) (by decide) (by decide) (by decide)⟩

/-- C6: when today is already a party day for the unit, a regular request is
classified `type = free`, `paymentStatus = free`, `price = null`, with no
hypothesis on the free-pass count versus the limit. -/
theorem C6_regular_on_party_day (cal : Cal) (s : State) (now : Nat) (uid vid : String)
    (v : Vehicle) (i : Nat) (u : URec)
    (hv : findVehicle s vid = some v)
    (ha : findActivePass s vid now = none)
    (hi : s.units.findIdx? (fun w => w.id == uid) = some i)
    (hu : s.units[i]? = some u)
    (hp : isTodayPartyDay cal u now = true) :
    ∃ p, (createPass cal s now uid vid false).2 = Except.ok p ∧
      p.type = PassType.free ∧ p.paymentStatus = PaymentStatus.free ∧ p.price = none := by
  rw [createPass_reduce cal s now uid vid false v i u hv ha hi hu]
  simp only [Bool.false_eq_true, if_false, hp, if_true]
  exact ⟨_, rfl, rfl, rfl, rfl⟩

/-- C6 witness: the party-day store with the free-pass limit irrelevant. -/
theorem C6_regular_on_party_day_witness :
    (findVehicle stateP "v1" = some veh0 ∧ findActivePass stateP "v1" 1000000 = none ∧
      stateP.units.findIdx? (fun w => w.id == "u1") = some 0 ∧ stateP.units[0]? = some unitP ∧
      isTodayPartyDay cal0 unitP 1000000 = true) ∧
    (∃ p, (createPass cal0 stateP 1000000 "u1" "v1" false).2 = Except.ok p ∧
      p.type = PassType.free ∧ p.paymentStatus = PaymentStatus.free ∧ p.price = none) :=
  ⟨by decide, C6_regular_on_party_day cal0 stateP 1000000 "u1" "v1" veh0 0 unitP
    (by decide) (by decide) (by decide) (by decide) (by decide)⟩

/-- C8: a party request on a day that is already a party day never rejects
(even at or beyond the party limit, on which there is no hypothesis) and
consumes no second allocation: the units (hence every `partyDays` set) are
returned unchanged. -/
theorem C8_party_idempotent (cal : Cal) (s : State) (now : Nat) (uid vid : String)
    (v : Vehicle) (i : Nat) (u : URec)
    (hv : findVehicle s vid = some v)
    (ha : findActivePass s vid now = none)
    (hi : s.units.findIdx? (fun w => w.id == uid) = some i)
    (hu : s.units[i]? = some u)
    (hp : isTodayPartyDay cal u now = true) :
    ∃ p, (createPass cal s now uid vid true).2 = Except.ok p ∧
      p.type = PassType.party ∧ p.paymentStatus = PaymentStatus.free ∧ p.price = none ∧
      (createPass cal s now uid vid true).1.units = s.units := by
  rw [createPass_reduce cal s now uid vid true v i u hv ha hi hu]
  simp only [if_true, hp]
  exact ⟨_, rfl, rfl, rfl, rfl, rfl⟩

/-- C8 witness: a party request on the already-party day, with the party
limit already exhausted this month (`partyDaysConsumedThisMonth = 1 > 0`
would not matter; here the limit is 3 and the point is no consumption). -/
theorem C8_party_idempotent_witness :
    (findVehicle stateP "v1" = some veh0 ∧ findActivePass stateP "v1" 1000000 = none ∧
      stateP.units.findIdx? (fun w => w.id == "u1") = some 0 ∧ stateP.units[0]? = some unitP ∧
      isTodayPartyDay cal0 unitP 1000000 = true) ∧
    (∃ p, (createPass cal0 stateP 1000000 "u1" "v1" true).2 = Except.ok p ∧
      p.type = PassType.party ∧ p.paymentStatus = PaymentStatus.free ∧ p.price = none ∧
      (createPass cal0 stateP 1000000 "u1" "v1" true).1.units = stateP.units) :=
  ⟨by decide, C8_party_idempotent cal0 stateP 1000000 "u1" "v1" veh0 0 unitP
    (by decide) (by decide) (by decide) (by decide) (by decide)⟩

/-- C1: starting from a store satisfying the per-vehicle expiry invariant,
after any sequence of `createPass` calls at nondecreasing clock values, at
most one stored Pass of any vehicle has `expiresAt > now` at any instant
`now` from the last call on (instants inside the sequence are covered by
applying the theorem to the corresponding prefix); and a request (regular
or party) for an existing vehicle that still holds a Pass with
`expiresAt > now` is rejected with `DuplicateActivePass` and the store —
in particular the pass list — is returned unchanged. -/
theorem C1_at_most_one_active (cal : Cal) (s : State) (t0 now : Nat) (reqs : List Req)
    (hInv : Inv t0 s.passes)
    (hchain : List.Chain' (· ≤ ·) (t0 :: reqs.map Req.now))
    (ht0 : t0 ≤ now)
    (hall : ∀ r ∈ reqs, r.now ≤ now) :
    (∀ vid, ((applyRun cal s reqs).passes.filter
        (fun p => p.vehicleId == vid && decide (now < p.expiresAt))).length ≤ 1) ∧
    (∀ (s' : State) (now' : Nat) (uid vid : String) (b : Bool) (v : Vehicle) (q : Pass),
      findVehicle s' vid = some v → q ∈ s'.passes → q.vehicleId = vid → now' < q.expiresAt →
      (∃ e, (createPass cal s' now' uid vid b).2 = Except.error (Err.duplicateActivePass e)) ∧
        (createPass cal s' now' uid vid b).1 = s') := by
  constructor
  · intro vid
    exact inv_at_most_one now vid _ (inv_applyRun cal reqs s t0 now hInv hchain ht0 hall)
  · intro s' now' uid vid b v q hv hq hqv hqe
    exact createPass_duplicate_reject cal s' now' uid vid b v q hv hq hqv hqe

/-- C1 witness: two requests for the same vehicle, the second while the
first pass is still active; afterwards the vehicle holds one active pass,
and the duplicate branch is exercised on the post-run store. -/
theorem C1_at_most_one_active_witness :
    (Inv 0 state0.passes ∧
      List.Chain' (· ≤ ·) (0 :: [Req.mk 1000000 "u1" "v1" false,
        Req.mk 2000000 "u1" "v1" false].map Req.now) ∧
      (0 : Nat) ≤ 5000000 ∧
      (∀ r ∈ [Req.mk 1000000 "u1" "v1" false, Req.mk 2000000 "u1" "v1" false],
        r.now ≤ 5000000)) ∧
    (∀ vid, ((applyRun cal0 state0 [Req.mk 1000000 "u1" "v1" false,
        Req.mk 2000000 "u1" "v1" false]).passes.filter
          (fun p => p.vehicleId == vid && decide (5000000 < p.expiresAt))).length ≤ 1) :=
  ⟨⟨List.Pairwise.nil, by simp [List.chain'_cons], by decide, by decide⟩,
    (C1_at_most_one_active cal0 state0 0 5000000
      [Req.mk 1000000 "u1" "v1" false, Req.mk 2000000 "u1" "v1" false]
      List.Pairwise.nil (by simp [List.chain'_cons]) (by decide) (by decide)).1⟩

/-- C3 counterexample: in a store where today is a party day for unit `u1`
and no pass exists, creating a regular pass changes the free-pass-this-month
counter that subsequent classification decisions read from 0 to 1 — the
party-day regular pass is stored with `type = free` and is counted. -/
theorem C3_counterexample :
    isTodayPartyDay cal0 unitP 1000000 = true ∧
    freeCountThisMonth cal0 stateP.passes "u1" 1000000 = 0 ∧
    freeCountThisMonth cal0 (createPass cal0 stateP 1000000 "u1" "v1" false).1.passes
      "u1" 1000000 = 1 := by
  decide

/-- C3 amended: a regular pass issued free because today is a party day is
stored with `type = free` and therefore does count against the unit's
free-pass monthly limit — when `now` lies strictly inside the month window,
it increments by one the counter read by subsequent classification
decisions. -/
theorem C3_party_day_pass_counts (cal : Cal) (s : State) (now : Nat) (uid vid : String)
    (v : Vehicle) (i : Nat) (u : URec)
    (hv : findVehicle s vid = some v)
    (ha : findActivePass s vid now = none)
    (hi : s.units.findIdx? (fun w => w.id == uid) = some i)
    (hu : s.units[i]? = some u)
    (hp : isTodayPartyDay cal u now = true)
    (h1 : cal.startOfMonth now < now)
    (h2 : now < cal.endOfMonth now) :
    freeCountThisMonth cal (createPass cal s now uid vid false).1.passes uid now
      = freeCountThisMonth cal s.passes uid now + 1 := by
  rw [createPass_reduce cal s now uid vid false v i u hv ha hi hu]
  simp only [Bool.false_eq_true, if_false, hp, if_true, mkPass]
  unfold freeCountThisMonth
  rw [List.filter_cons, if_pos (by simp [h1, h2])]
  simp [Nat.add_comm]

/-- C3 amended witness: the concrete party-day store. -/
theorem C3_party_day_pass_counts_witness :
    (findVehicle stateP "v1" = some veh0 ∧ findActivePass stateP "v1" 1000000 = none ∧
      stateP.units.findIdx? (fun w => w.id == "u1") = some 0 ∧ stateP.units[0]? = some unitP ∧
      isTodayPartyDay cal0 unitP 1000000 = true ∧
      cal0.startOfMonth 1000000 < 1000000 ∧ 1000000 < cal0.endOfMonth 1000000) ∧
    freeCountThisMonth cal0 (createPass cal0 stateP 1000000 "u1" "v1" false).1.passes
        "u1" 1000000
      = freeCountThisMonth cal0 stateP.passes "u1" 1000000 + 1 :=
  ⟨by decide, C3_party_day_pass_counts cal0 stateP 1000000 "u1" "v1" veh0 0 unitP
    (by decide) (by decide) (by decide) (by decide) (by decide) (by decide) (by decide)⟩

/-- C4 counterexample: a pass whose current `paymentStatus` is `free` is
moved to `paid` without any error — no `InvalidTransition` exists in the
code and the store is mutated. -/
theorem C4_counterexample :
    pass0.paymentStatus = PaymentStatus.free ∧
    (updatePassPaymentStatus state4 0 PaymentStatus.paid).2
        = Except.ok { pass0 with paymentStatus := PaymentStatus.paid } ∧
    (updatePassPaymentStatus state4 0 PaymentStatus.paid).1.passes
        = [{ pass0 with paymentStatus := PaymentStatus.paid }] := by
  decide

/-- C4 amended: `updatePassPaymentStatus` applies any requested status to
the first pass carrying the id unconditionally — every transition from
every current status is permitted, only the `paymentStatus` field changes,
and the call fails only when no pass carries the id. The
`payment_required`-only restriction exists solely in the admin UI, which
renders the paid/waive actions only for `payment_required` passes. -/
theorem C4_update_unconditional (s : State) (pid : Nat) (st : PaymentStatus)
    (i : Nat) (p : Pass)
    (hi : s.passes.findIdx? (fun q => q.id == pid) = some i)
    (hp : s.passes[i]? = some p) :
    (updatePassPaymentStatus s pid st).2 = Except.ok { p with paymentStatus := st } ∧
    (updatePassPaymentStatus s pid st).1.passes
        = s.passes.set i { p with paymentStatus := st } := by
  simp [updatePassPaymentStatus, hi, hp]

/-- C4 amended witness: the `free → paid` transition on the concrete store. -/
theorem C4_update_unconditional_witness :
    (state4.passes.findIdx? (fun q => q.id == 0) = some 0 ∧ state4.passes[0]? = some pass0) ∧
    ((updatePassPaymentStatus state4 0 PaymentStatus.waived).2
        = Except.ok { pass0 with paymentStatus := PaymentStatus.waived } ∧
      (updatePassPaymentStatus state4 0 PaymentStatus.waived).1.passes
        = state4.passes.set 0 { pass0 with paymentStatus := PaymentStatus.waived }) :=
  ⟨by decide, C4_update_unconditional state4 0 PaymentStatus.waived 0 pass0
    (by decide) (by decide)⟩

/-- C7 counterexample: for the client-library `countFreePassesThisMonth`
(`client/src/lib/passes-db.ts`), a single `party`-typed row issued at no
charge (`payment_status = free`) in the current month is counted: the
count is 1, not 0, so party rows do contribute there. -/
theorem C7_counterexample :
    rowParty.type = PassType.party ∧
    countFreePassesThisMonthClient cal0 [rowParty] "u1" 1000000 = 1 := by
  decide

/-- C7 amended: the root `passes-db.ts` `countFreePassesThisMonth` counts
exactly the unit's current-month rows whose `type` equals `free`, so a
`party`-typed row never contributes to it; but the client-library version
counts `type = free` or `payment_status = free`, so a `party`-typed row of
the unit inside the month window (their `payment_status` is `free`) adds
one to that count. -/
theorem C7_party_rows_and_counts (cal : Cal) (rows : List PassRow) (uid : String)
    (now : Nat) (r : PassRow) (hty : r.type = PassType.party) :
    countFreePassesThisMonth cal (r :: rows) uid now
        = countFreePassesThisMonth cal rows uid now ∧
    (r.unit_id = uid → cal.startOfMonth now ≤ r.created_at →
      r.created_at < cal.nextMonthStart now → r.payment_status = PaymentStatus.free →
      countFreePassesThisMonthClient cal (r :: rows) uid now
        = countFreePassesThisMonthClient cal rows uid now + 1) := by
  constructor
  · unfold countFreePassesThisMonth
    rw [List.filter_cons, if_neg (by simp [hty])]
  · intro h1 h2 h3 h4
    unfold countFreePassesThisMonthClient
    rw [List.filter_cons, if_pos (by simp [h1, h2, h3])]
    rw [List.filter_cons, if_pos (by simp [h4])]
    simp [Nat.add_comm]

/-- C7 amended witness: the concrete party row inside the month window. -/
theorem C7_party_rows_and_counts_witness :
    (rowParty.type = PassType.party ∧ rowParty.unit_id = "u1" ∧
      cal0.startOfMonth 1000000 ≤ rowParty.created_at ∧
      rowParty.created_at < cal0.nextMonthStart 1000000 ∧
      rowParty.payment_status = PaymentStatus.free) ∧
    (countFreePassesThisMonth cal0 [rowParty] "u1" 1000000
        = countFreePassesThisMonth cal0 [] "u1" 1000000 ∧
      countFreePassesThisMonthClient cal0 [rowParty] "u1" 1000000
        = countFreePassesThisMonthClient cal0 [] "u1" 1000000 + 1) :=
  ⟨by decide,
    ⟨(C7_party_rows_and_counts cal0 [] "u1" 1000000 rowParty (by decide)).1,
      (C7_party_rows_and_counts cal0 [] "u1" 1000000 rowParty (by decide)).2
        (by decide) (by decide) (by decide) (by decide)⟩⟩

end ParkingPass
